import Mathlib

/-!
Verification of the PE rule-out decision pipeline
(backend/pe_model/serve_model.py, backend/integration/clinical_mappings.py,
backend/integration/fhir_mapping.py).

The Python feature dictionaries are embedded as total functions
`String → Option Val`, where `none` models an absent key or a `None`
value (Python `dict.get` does not distinguish them) and `Val.nan` models
a float NaN.  Stateful globals (`_THRESHOLD`, `_FEATURE_METADATA`) are
embedded as an explicit `ServingState` record passed to
`interpret_pe_result`.  The classifier together with
`prepare_feature_vector` is abstracted as an opaque total function
`FeatureMap → ℚ`, since the claims treat the prediction step itself as a
black box.
-/

namespace PEServe

/-- Value stored under a key of a Python feature dict: a number or NaN. -/
inductive Val where
  | num (q : ℚ)
  | nan
deriving DecidableEq

/-- A Python feature dict: total map from key to optional value. -/
abbrev FeatureMap := String → Option Val

/-- The test `value is None or (isinstance(value, float) and np.isnan(value))`
used both by `validate_required_features` and `apply_missingness_features`. -/
def isMissingVal : Option Val → Bool
  | none => true
  | some Val.nan => true
  | some (Val.num _) => false

/-- REQUIRED_FEATURES from serve_model.py (reject if missing). -/
def REQUIRED_FEATURES : List String :=
  ["age", "triage_hr", "triage_rr", "triage_o2sat", "triage_sbp", "triage_dbp"]

/-- MISSINGNESS_FEATURES from serve_model.py (optional features that get a
companion missingness indicator). -/
def MISSINGNESS_FEATURES : List String :=
  [ "wbc", "hemoglobin", "hematocrit", "platelet",
    "creatinine", "bun", "glucose", "sodium", "potassium",
    "lactate", "troponin", "bnp", "d_dimer",
    "po2", "pco2", "ph", "base_excess",
    "hr_mean", "hr_max", "hr_min", "hr_std",
    "sbp_mean", "sbp_max", "sbp_min", "sbp_std",
    "dbp_mean", "dbp_max", "dbp_min", "dbp_std",
    "rr_mean", "rr_max", "rr_min", "rr_std",
    "spo2_mean", "spo2_max", "spo2_min", "spo2_std",
    "temp_mean", "temp_max", "temp_min", "temp_std" ]

/-- validate_required_features: scans REQUIRED_FEATURES in order, collecting
those whose value is None or NaN; returns (no feature missing, missing list). -/
def validate_required_features (m : FeatureMap) : Bool × List String :=
  let missing := REQUIRED_FEATURES.filter (fun f => isMissingVal (m f))
  (missing.length == 0, missing)

/-- apply_missingness_features: the loop reads each optional feature from the
ORIGINAL dict, always writes the companion indicator `f ++ "_missing"`, and
overwrites the feature with 0 exactly when it was None or NaN.  This function
is the final dict state: indicator keys are recognised by matching
`f ++ "_missing"` against MISSINGNESS_FEATURES (in list order, mirroring the
loop; the match is unique since no optional feature name ends in "_missing"). -/
def apply_missingness_features (m : FeatureMap) : FeatureMap := fun k =>
  match MISSINGNESS_FEATURES.find? (fun f => f ++ "_missing" == k) with
  | some f => some (Val.num (if isMissingVal (m f) then 1 else 0))
  | none =>
      if MISSINGNESS_FEATURES.contains k && isMissingVal (m k) then
        some (Val.num 0)
      else m k

/-- The error text of the ValueError raised by predict_pe_probability. -/
def missing_message (missing : List String) : String :=
  "Missing required features: " ++ String.intercalate ", " missing ++
    ". These features must be provided for prediction."

/-- predict_pe_probability: validates required features and raises (models as
`Except.error`) when any is missing, otherwise invokes the classifier.  The
composite of prepare_feature_vector and the loaded model predict_proba is
abstracted as the total function `model`. -/
def predict_pe_probability (model : FeatureMap → ℚ) (m : FeatureMap) :
    Except String ℚ :=
  let v := validate_required_features m
  if v.1 then Except.ok (model m) else Except.error (missing_message v.2)

/-- Which explanation template interpret_pe_result picks.  The Python builds
f-strings that interpolate the probability; the template choice is what the
claims constrain, so the explanation field is embedded as this selector. -/
inductive Band where
  | ruleOut
  | moderateWorkup
  | elevatedWorkup
  | highWorkup
deriving DecidableEq

/-- The `test_metrics` sub-dict of `_FEATURE_METADATA`: each metric may be
absent (Python `dict.get` with a default). -/
structure TestMetrics where
  sensitivity : Option ℚ
  npv : Option ℚ
  safeRuleOutRate : Option ℚ
deriving DecidableEq

/-- The module globals read by interpret_pe_result.  `threshold` is
`_THRESHOLD` (`none` = never assigned / model artifact without one);
`metrics` is `none` when `_FEATURE_METADATA` is absent or has no
`test_metrics` entry.  `isDummy` is a ghost flag recording whether
`_create_dummy_model` built this state; the Python code keeps no such
flag, and `interpret_pe_result` never reads it. -/
structure ServingState where
  threshold : Option ℚ
  metrics : Option TestMetrics
  isDummy : Bool
deriving DecidableEq

/-- The state left by `_create_dummy_model`: threshold 0.10, feature metadata
without a `test_metrics` entry. -/
def dummyModelState : ServingState :=
  { threshold := some (mkRat 1 10), metrics := none, isDummy := true }

/-- The dict returned by interpret_pe_result. -/
structure DecisionResult where
  probability : ℚ
  threshold : ℚ
  decision : String
  explanation : Band
  confidence : String
  sensitivity : ℚ
  npv : ℚ
  rule_out_rate : ℚ
  disclaimer : String
deriving DecidableEq

/-- Python `round(x, 4)`.  (Python rounds ties to even; `round` here rounds
ties up.  No claim constrains a tie case, and the two agree elsewhere.) -/
def round4 (q : ℚ) : ℚ := ((round (q * 10000) : ℤ) : ℚ) / 10000

/-- The line `threshold = _THRESHOLD or 0.10`: Python `or` replaces any falsy
value, so both an unset threshold and a threshold equal to 0.0 become 0.10.
Numeric literals are written with `mkRat` so they evaluate by `decide`. -/
def effective_threshold (t : Option ℚ) : ℚ :=
  match t with
  | none => mkRat 1 10
  | some q => if q = 0 then mkRat 1 10 else q

/-- interpret_pe_result from serve_model.py, over an explicit ServingState. -/
def interpret_pe_result (st : ServingState) (probability : ℚ) : DecisionResult :=
  let threshold := effective_threshold st.threshold
  let decision := if probability < threshold then "rule_out" else "continue_workup"
  let ec : Band × String :=
    if probability < threshold then (Band.ruleOut, "high")
    else if probability < mkRat 1 4 then (Band.moderateWorkup, "moderate")
    else if probability < mkRat 1 2 then (Band.elevatedWorkup, "high")
    else (Band.highWorkup, "high")
  { probability := round4 probability
    threshold := round4 threshold
    decision := decision
    explanation := ec.1
    confidence := ec.2
    sensitivity := (st.metrics.bind TestMetrics.sensitivity).getD (mkRat 99 100)
    npv := (st.metrics.bind TestMetrics.npv).getD (mkRat 976 1000)
    rule_out_rate := (st.metrics.bind TestMetrics.safeRuleOutRate).getD (mkRat 58 1000)
    disclaimer := "This is a decision support tool, not a diagnostic test. Clinical judgment should always take precedence." }

end PEServe

namespace ClinicalMappings

/-- Lowercasing a string character by character (Python `str.lower` restricted
to the ASCII medication and gender vocabulary used here). -/
def lowerStr (s : String) : String := String.mk (s.toList.map Char.toLower)

/-- Python `pat in s` over character lists: `pat` occurs as a prefix of `s`. -/
def startsWithL : List Char → List Char → Bool
  | [], _ => true
  | _ :: _, [] => false
  | p :: ps, c :: cs => p == c && startsWithL ps cs

/-- Python `pat in s` over character lists: `pat` occurs contiguously in `s`. -/
def hasSubL : List Char → List Char → Bool
  | pat, [] => pat.isEmpty
  | pat, c :: cs => startsWithL pat (c :: cs) || hasSubL pat cs

/-- Python substring test `pat in s`. -/
def strHasSub (pat s : String) : Bool := hasSubL pat.toList s.toList

/-- MEDICATION_PATTERNS from clinical_mappings.py, in dict insertion order
(Python dicts iterate in insertion order). -/
def MEDICATION_PATTERNS : List (String × List String) :=
  [ ("DOAC",
      [ "apixaban", "eliquis",
        "rivaroxaban", "xarelto",
        "dabigatran", "pradaxa",
        "edoxaban", "savaysa", "lixiana",
        "betrixaban", "bevyxxa" ]),
    ("Warfarin",
      [ "warfarin", "coumadin", "jantoven" ]),
    ("Heparin_LMWH",
      [ "heparin", "unfractionated heparin",
        "enoxaparin", "lovenox",
        "dalteparin", "fragmin",
        "tinzaparin", "innohep",
        "fondaparinux", "arixtra" ]),
    ("Antiplatelet",
      [ "aspirin", "asa", "acetylsalicylic",
        "clopidogrel", "plavix",
        "ticagrelor", "brilinta",
        "prasugrel", "effient",
        "dipyridamole", "aggrenox",
        "ticlopidine", "ticlid",
        "cangrelor", "kengreal",
        "vorapaxar", "zontivity" ]) ]

/-- classify_medication from clinical_mappings.py: empty input is "Other";
otherwise the first category (in declaration order) with a pattern occurring
case-insensitively as a substring wins, and "Other" is returned on no match. -/
def classify_medication (med_name : String) : String :=
  if med_name = "" then "Other"
  else
    match MEDICATION_PATTERNS.find?
        (fun cp => cp.2.any (fun pat => strHasSub pat (lowerStr med_name))) with
    | some cp => cp.1
    | none => "Other"

/-- extract_gender from fhir_mapping.py, over the optional `gender` field of
the Patient resource.  Python checks truthiness (absent or empty string gives
None), then looks the lowercased value up in a fixed table whose `.get`
default is the ORIGINAL string; "unknown" is in the table with value None. -/
def extract_gender (gender : Option String) : Option String :=
  match gender with
  | none => none
  | some g =>
      if g = "" then none
      else
        let gl := lowerStr g
        if gl = "male" then some "M"
        else if gl = "female" then some "F"
        else if gl = "other" then some "Other"
        else if gl = "unknown" then none
        else some g

end ClinicalMappings

open PEServe ClinicalMappings

/-- Helper: no optional feature name is itself the indicator name of another
optional feature (checked over the concrete 41-element table). -/
lemma find_indicator_of_feature :
    ∀ f ∈ MISSINGNESS_FEATURES,
      MISSINGNESS_FEATURES.find? (fun g => g ++ "_missing" == f) = none := by
  decide

/-- Helper: the indicator name of an optional feature resolves back to that
feature (checked over the concrete 41-element table). -/
lemma find_indicator_name :
    ∀ f ∈ MISSINGNESS_FEATURES,
      MISSINGNESS_FEATURES.find?
        (fun g => g ++ "_missing" == f ++ "_missing") = some f := by
  decide

/-- Helper: the value of an optional feature after one pass of the
missingness policy is never None or NaN. -/
lemma apply_missingness_defined (m : FeatureMap) :
    ∀ f ∈ MISSINGNESS_FEATURES,
      isMissingVal (apply_missingness_features m f) = false := by
  intro f hf
  unfold apply_missingness_features
  rw [find_indicator_of_feature f hf]
  by_cases hm : isMissingVal (m f) = true
  · simp [hm, hf]
    rfl
  · simp only [Bool.not_eq_true] at hm
    simp [hm]


/-- Claim C4: for every input feature map and every listed optional feature,
apply_missingness_features sets the companion indicator to 1 and the value to
0 when the input value is None or NaN, sets the indicator to 0 and leaves the
value unchanged when a non-None non-NaN value is present, and passes every
other key of the map through unchanged. -/
theorem C4_missingness_policy (m : FeatureMap) :
    (∀ f ∈ MISSINGNESS_FEATURES,
      (isMissingVal (m f) = true →
        apply_missingness_features m (f ++ "_missing") = some (Val.num 1) ∧
        apply_missingness_features m f = some (Val.num 0)) ∧
      (isMissingVal (m f) = false →
        apply_missingness_features m (f ++ "_missing") = some (Val.num 0) ∧
        apply_missingness_features m f = m f)) ∧
    (∀ k : String, k ∉ MISSINGNESS_FEATURES →
      (∀ f ∈ MISSINGNESS_FEATURES, f ++ "_missing" ≠ k) →
      apply_missingness_features m k = m k) := by
  constructor
  · intro f hf
    constructor
    · intro hmiss
      constructor
      · unfold apply_missingness_features
        rw [find_indicator_name f hf]
        simp [hmiss]
      · unfold apply_missingness_features
        rw [find_indicator_of_feature f hf]
        simp [hf, hmiss]
    · intro hpres
      constructor
      · unfold apply_missingness_features
        rw [find_indicator_name f hf]
        simp [hpres]
      · unfold apply_missingness_features
        rw [find_indicator_of_feature f hf]
        simp [hpres]
  · intro k hk hnk
    unfold apply_missingness_features
    have hfind : MISSINGNESS_FEATURES.find? (fun g => g ++ "_missing" == k) = none := by
      rw [List.find?_eq_none]
      intro g hg
      simpa using hnk g hg
    rw [hfind]
    simp [hk]

/-- Concrete instance map for the C4 witness: wbc absent, hemoglobin and age
present. -/
def c4Map : FeatureMap := fun k =>
  if k == "wbc" then none
  else if k == "hemoglobin" then some (Val.num 5)
  else if k == "age" then some (Val.num 50)
  else none

/-- Witness for C4 at a concrete map: a missing optional feature gets
indicator 1, a present one gets its value passed through, and a
non-optional key is untouched. -/
theorem C4_missingness_policy_witness :
    apply_missingness_features c4Map ("wbc" ++ "_missing") = some (Val.num 1) ∧
    apply_missingness_features c4Map "hemoglobin" = c4Map "hemoglobin" ∧
    apply_missingness_features c4Map "age" = c4Map "age" :=
  ⟨(((C4_missingness_policy c4Map).1 "wbc" (by decide)).1 (by decide)).1,
   (((C4_missingness_policy c4Map).1 "hemoglobin" (by decide)).2 (by decide)).2,
   (C4_missingness_policy c4Map).2 "age" (by decide) (by decide)⟩

/-- Counterexample to claim C5: the missingness policy is NOT idempotent on
indicators.  On the map with every key absent, one application sets
wbc_missing to 1, but a second application reads the substituted wbc value 0,
finds it defined, and resets wbc_missing to 0. -/
theorem C5_counterexample :
    apply_missingness_features (apply_missingness_features (fun _ => none))
        "wbc_missing" ≠
      apply_missingness_features (fun _ => none) "wbc_missing" := by
  decide

/-- Claim C5 as amended: a second application of the missingness policy sets
every missingness indicator to 0, because the first application leaves every
optional feature with a defined (non-None, non-NaN) value.  Idempotence on
indicators therefore holds only for maps with no missing optional feature. -/
theorem C5_second_pass_resets_indicators (m : FeatureMap) :
    ∀ f ∈ MISSINGNESS_FEATURES,
      apply_missingness_features (apply_missingness_features m)
        (f ++ "_missing") = some (Val.num 0) := by
  intro f hf
  have hval := apply_missingness_defined m f hf
  conv_lhs => rw [apply_missingness_features]
  rw [find_indicator_name f hf]
  simp [hval]

/-- Witness for the amended C5 at a concrete input: on the all-absent map the
second pass yields indicator 0 for wbc. -/
theorem C5_second_pass_witness :
    apply_missingness_features (apply_missingness_features (fun _ => none))
      ("wbc" ++ "_missing") = some (Val.num 0) :=
  C5_second_pass_resets_indicators (fun _ => none) "wbc" (by decide)

/-- Claim C2: for every feature map whose required features are each either
None/absent or a plain number, validate_required_features returns exactly the
None-valued subset as missing, listed in REQUIRED_FEATURES order, and its
boolean is true exactly when that subset is empty.  (The function is a pure
Lean function, so totality and absence of side effects hold by construction.) -/
theorem C2_validate_required (m : FeatureMap)
    (h : ∀ f ∈ REQUIRED_FEATURES, m f = none ∨ ∃ q : ℚ, m f = some (Val.num q)) :
    (validate_required_features m).2 =
      REQUIRED_FEATURES.filter (fun f => (m f).isNone) ∧
    ((validate_required_features m).1 = true ↔
      REQUIRED_FEATURES.filter (fun f => (m f).isNone) = []) := by
  have hcong : ∀ f ∈ REQUIRED_FEATURES, isMissingVal (m f) = (m f).isNone := by
    intro f hf
    rcases h f hf with h1 | ⟨q, hq⟩
    · rw [h1]; rfl
    · rw [hq]; rfl
  have hsnd : (validate_required_features m).2 =
      REQUIRED_FEATURES.filter (fun f => (m f).isNone) := by
    simp only [validate_required_features]
    exact List.filter_congr hcong
  refine ⟨hsnd, ?_⟩
  have hfst : (validate_required_features m).1 =
      ((validate_required_features m).2.length == 0) := rfl
  rw [hfst, hsnd]
  simp [List.length_eq_zero]

/-- Concrete map for the C2 witness: triage_o2sat absent, every other key a
plain number (the specification's Scenario B). -/
def o2satMissingMap : FeatureMap := fun k =>
  if k == "triage_o2sat" then none else some (Val.num 1)

/-- Witness for C2: with only triage_o2sat missing, the missing list is
exactly ["triage_o2sat"]. -/
theorem C2_validate_required_witness :
    (validate_required_features o2satMissingMap).2 = ["triage_o2sat"] :=
  (C2_validate_required o2satMissingMap (by
    intro f _
    by_cases hf : f == "triage_o2sat"
    · exact Or.inl (by simp [o2satMissingMap, hf])
    · exact Or.inr ⟨1, by simp [o2satMissingMap, hf]⟩)).1.trans (by decide)

/-- Claim C3: predict_pe_probability fails exactly when some required feature
is missing; the error message names exactly the missing canonical feature
names in schema order; and in the failure case the result does not depend on
the classifier at all (swapping in any other classifier gives the identical
outcome), so no prediction is attempted. -/
theorem C3_missing_rejects (model model2 : FeatureMap → ℚ) (m : FeatureMap) :
    ((∃ f ∈ REQUIRED_FEATURES, isMissingVal (m f) = true) ↔
      predict_pe_probability model m =
        Except.error (missing_message
          (REQUIRED_FEATURES.filter (fun f => isMissingVal (m f))))) ∧
    ((∃ f ∈ REQUIRED_FEATURES, isMissingVal (m f) = true) →
      predict_pe_probability model m = predict_pe_probability model2 m) := by
  by_cases hv : (validate_required_features m).1 = true
  · have hnil : REQUIRED_FEATURES.filter (fun f => isMissingVal (m f)) = [] := by
      simpa [validate_required_features, List.length_eq_zero] using hv
    have hno : ¬ ∃ f ∈ REQUIRED_FEATURES, isMissingVal (m f) = true := by
      rw [List.filter_eq_nil_iff] at hnil
      rintro ⟨f, hf, hmf⟩
      exact (hnil f hf) (by simp [hmf])
    refine ⟨⟨fun hex => absurd hex hno, fun heq => ?_⟩, fun hex => absurd hex hno⟩
    exfalso
    unfold predict_pe_probability at heq
    simp [hv] at heq
  · have hv' : (validate_required_features m).1 = false := by
      cases hb : (validate_required_features m).1
      · rfl
      · exact absurd hb hv
    have herr : ∀ mo : FeatureMap → ℚ,
        predict_pe_probability mo m =
          Except.error (missing_message (validate_required_features m).2) := by
      intro mo
      unfold predict_pe_probability
      simp [hv']
    have hex : ∃ f ∈ REQUIRED_FEATURES, isMissingVal (m f) = true := by
      have hne : REQUIRED_FEATURES.filter (fun f => isMissingVal (m f)) ≠ [] := by
        intro hnil
        apply hv
        simp [validate_required_features, hnil]
      rcases List.exists_mem_of_ne_nil _ hne with ⟨x, hx⟩
      have hx2 := List.mem_filter.mp hx
      exact ⟨x, hx2.1, by simpa using hx2.2⟩
    refine ⟨⟨fun _ => herr model, fun _ => hex⟩, fun _ => ?_⟩
    rw [herr model, herr model2]

/-- Witness for C3: on the all-absent map, prediction is rejected with the
error text listing all six required features, independently of the
classifier passed in. -/
theorem C3_missing_rejects_witness :
    predict_pe_probability (fun _ => mkRat 1 2) (fun _ => none) =
      Except.error ("Missing required features: age, triage_hr, triage_rr, triage_o2sat, triage_sbp, triage_dbp. These features must be provided for prediction.") :=
  ((C3_missing_rejects (fun _ => mkRat 1 2) (fun _ => mkRat 9 10)
      (fun _ => none)).1.mp (by decide)).trans
    (congrArg Except.error (by decide))

/-- Counterexample to claim C1 as stated: with a loaded threshold of 0.0 and
probability exactly equal to it (p = t = 0), the decision is "rule_out", not
"continue_workup", because `threshold = _THRESHOLD or 0.10` silently replaces
the falsy stored threshold by 0.10 before the strict comparison. -/
theorem C1_counterexample :
    (interpret_pe_result ⟨some 0, none, false⟩ 0).decision = "rule_out" := by
  decide

/-- Claim C1 as amended: for every probability p and every loaded NONZERO
threshold t, the decision is "rule_out" iff p < t, and at p = t it is
"continue_workup" (strict-inequality boundary).  When the loaded threshold is
unset or 0.0 the comparison instead uses the substituted default 0.10. -/
theorem C1_strict_threshold (t p : ℚ) (ms : Option TestMetrics) (b : Bool)
    (ht : t ≠ 0) :
    ((interpret_pe_result ⟨some t, ms, b⟩ p).decision = "rule_out" ↔ p < t) ∧
    (p = t →
      (interpret_pe_result ⟨some t, ms, b⟩ p).decision = "continue_workup") := by
  have heff : effective_threshold (some t) = t := by
    simp [effective_threshold, ht]
  constructor
  · by_cases hp : p < t
    · simp [interpret_pe_result, heff, hp]
    · simp [interpret_pe_result, heff, hp]
  · intro hpt
    subst hpt
    simp [interpret_pe_result, heff]

/-- Witness for the amended C1 at the boundary (Scenario D): with loaded
threshold 0.08 and probability exactly 0.08, the decision is
"continue_workup". -/
theorem C1_strict_threshold_witness :
    (interpret_pe_result ⟨some (mkRat 2 25), none, false⟩
      (mkRat 2 25)).decision = "continue_workup" :=
  (C1_strict_threshold (mkRat 2 25) (mkRat 2 25) none false (by decide)).2 rfl

/-- Claim C6: above or at the effective threshold the explanation band is cut
exactly at 0.25 and 0.50 (moderate, then elevated, then high text), the
confidence is "moderate" only in the lowest continue-workup band and "high"
in the other two; below the threshold (rule_out) the confidence is "high". -/
theorem C6_confidence_bands (st : ServingState) (p : ℚ) :
    (p < effective_threshold st.threshold →
      (interpret_pe_result st p).explanation = Band.ruleOut ∧
      (interpret_pe_result st p).confidence = "high") ∧
    (effective_threshold st.threshold ≤ p → p < mkRat 1 4 →
      (interpret_pe_result st p).explanation = Band.moderateWorkup ∧
      (interpret_pe_result st p).confidence = "moderate") ∧
    (effective_threshold st.threshold ≤ p → mkRat 1 4 ≤ p → p < mkRat 1 2 →
      (interpret_pe_result st p).explanation = Band.elevatedWorkup ∧
      (interpret_pe_result st p).confidence = "high") ∧
    (effective_threshold st.threshold ≤ p → mkRat 1 2 ≤ p →
      (interpret_pe_result st p).explanation = Band.highWorkup ∧
      (interpret_pe_result st p).confidence = "high") := by
  refine ⟨?_, ?_, ?_, ?_⟩
  · intro h1
    simp [interpret_pe_result, h1]
  · intro h1 h2
    have hn1 : ¬ p < effective_threshold st.threshold := not_lt.mpr h1
    simp [interpret_pe_result, hn1, h2]
  · intro h1 h2 h3
    have hn1 : ¬ p < effective_threshold st.threshold := not_lt.mpr h1
    have hn2 : ¬ p < mkRat 1 4 := not_lt.mpr h2
    simp [interpret_pe_result, hn1, hn2, h3]
  · intro h1 h2
    have hn1 : ¬ p < effective_threshold st.threshold := not_lt.mpr h1
    have h14 : (mkRat 1 4 : ℚ) ≤ mkRat 1 2 := by decide
    have hn2 : ¬ p < mkRat 1 4 := not_lt.mpr (le_trans h14 h2)
    have hn3 : ¬ p < mkRat 1 2 := not_lt.mpr h2
    simp [interpret_pe_result, hn1, hn2, hn3]

/-- Witness for C6 (Scenario E corrected by the spec itself): with the
default threshold and probability 0.30, the band is the elevated text and the
confidence is "high". -/
theorem C6_confidence_bands_witness :
    (interpret_pe_result ⟨none, none, false⟩ (mkRat 3 10)).explanation =
        Band.elevatedWorkup ∧
      (interpret_pe_result ⟨none, none, false⟩ (mkRat 3 10)).confidence =
        "high" :=
  (C6_confidence_bands ⟨none, none, false⟩ (mkRat 3 10)).2.2.1
    (by decide) (by decide) (by decide)

/-- Claim C10: an unset or zero stored threshold (any falsy value) is
replaced by the default 0.10, so with a configured threshold of exactly 0.0 a
probability below 0.10 is still decided "rule_out". -/
theorem C10_falsy_threshold_default :
    effective_threshold none = mkRat 1 10 ∧
    effective_threshold (some 0) = mkRat 1 10 ∧
    ∀ (p : ℚ) (ms : Option TestMetrics) (b : Bool), p < mkRat 1 10 →
      (interpret_pe_result ⟨some 0, ms, b⟩ p).decision = "rule_out" := by
  refine ⟨rfl, by simp [effective_threshold], ?_⟩
  intro p ms b hp
  have heff : effective_threshold (some 0) = mkRat 1 10 := by
    simp [effective_threshold]
  simp [interpret_pe_result, heff, hp]

/-- Witness for C10: stored threshold 0.0 and probability 0.05 decide
"rule_out". -/
theorem C10_falsy_threshold_default_witness :
    (interpret_pe_result ⟨some 0, none, false⟩ (mkRat 1 20)).decision =
      "rule_out" :=
  C10_falsy_threshold_default.2.2 (mkRat 1 20) none false (by decide)

/-- Counterexample to claim C7: a gender value outside the fixed vocabulary
is NOT mapped to None.  The table lookup uses the original string as the
`.get` default, so "nonbinary" is passed through unchanged. -/
theorem C7_counterexample :
    extract_gender (some "nonbinary") = some "nonbinary" ∧
    extract_gender (some "nonbinary") ≠ none := by
  decide

/-- Claim C7 as amended: gender extraction maps "male" to "M", "female" to
"F" and "other" to "Other" (case-insensitively); an absent gender, an empty
string, or "unknown" yields None; and any other non-empty gender value is
returned unchanged rather than mapped to None. -/
theorem C7_gender_vocabulary (g : String) :
    extract_gender none = none ∧
    extract_gender (some "") = none ∧
    (lowerStr g = "male" → extract_gender (some g) = some "M") ∧
    (lowerStr g = "female" → extract_gender (some g) = some "F") ∧
    (lowerStr g = "other" → extract_gender (some g) = some "Other") ∧
    (lowerStr g = "unknown" → extract_gender (some g) = none) ∧
    (g ≠ "" → lowerStr g ≠ "male" → lowerStr g ≠ "female" →
      lowerStr g ≠ "other" → lowerStr g ≠ "unknown" →
      extract_gender (some g) = some g) := by
  have hne : ∀ w : String, lowerStr g = w → w ≠ "" → g ≠ "" := by
    intro w hw hwne hg
    subst hg
    exact hwne (hw.symm.trans (by decide))
  refine ⟨rfl, rfl, ?_, ?_, ?_, ?_, ?_⟩
  · intro hl
    have hg : g ≠ "" := hne "male" hl (by decide)
    simp [extract_gender, hg, hl]
  · intro hl
    have hg : g ≠ "" := hne "female" hl (by decide)
    simp [extract_gender, hg, hl]
  · intro hl
    have hg : g ≠ "" := hne "other" hl (by decide)
    simp [extract_gender, hg, hl]
  · intro hl
    have hg : g ≠ "" := hne "unknown" hl (by decide)
    simp [extract_gender, hg, hl]
  · intro hg h1 h2 h3 h4
    simp [extract_gender, hg, h1, h2, h3, h4]

/-- Witness for the amended C7: the out-of-vocabulary value "Agender" is
passed through unchanged. -/
theorem C7_gender_vocabulary_witness :
    extract_gender (some "Agender") = some "Agender" :=
  (C7_gender_vocabulary "Agender").2.2.2.2.2.2
    (by decide) (by decide) (by decide) (by decide) (by decide)

/-- Claim C8: classify_medication is a total Lean function returning "Other"
on every input matching no pattern, matches case-insensitively as substrings
with the code-table declaration order deciding ties (the "coumadin and
heparin drip" instance matches both the Warfarin and the Heparin_LMWH tables
and the earlier-declared Warfarin wins), and classifies "Eliquis 5mg" as
DOAC, "Coumadin" as Warfarin, and "Tylenol" as Other. -/
theorem C8_classify_medication :
    classify_medication "Eliquis 5mg" = "DOAC" ∧
    classify_medication "Coumadin" = "Warfarin" ∧
    classify_medication "coumadin and heparin drip" = "Warfarin" ∧
    classify_medication "Tylenol" = "Other" ∧
    ∀ med : String,
      (∀ cp ∈ MEDICATION_PATTERNS, ∀ pat ∈ cp.2,
        strHasSub pat (lowerStr med) = false) →
      classify_medication med = "Other" := by
  refine ⟨by decide, by decide, by decide, by decide, ?_⟩
  intro med h
  unfold classify_medication
  by_cases hm : med = ""
  · simp [hm]
  · have hfind : MEDICATION_PATTERNS.find?
        (fun cp => cp.2.any (fun pat => strHasSub pat (lowerStr med))) = none := by
      rw [List.find?_eq_none]
      intro cp hcp hany
      rw [List.any_eq_true] at hany
      obtain ⟨pat, hpat, hsub⟩ := hany
      rw [h cp hcp pat hpat] at hsub
      exact Bool.false_ne_true hsub
    simp [hm, hfind]

/-- Witness for C8 on an input matching no pattern: "saline flush" is
classified "Other". -/
theorem C8_classify_medication_witness :
    classify_medication "saline flush" = "Other" :=
  C8_classify_medication.2.2.2.2 "saline flush" (by decide)

/-- Claim C9 (code bug): when the deterministic fallback model is in use, the
DecisionResult carries NO reduced-fidelity marker.  The result type has only
the nine fields written by interpret_pe_result, and the output from the state
left by _create_dummy_model is identical, for every probability, to the
output from the same state flagged (via the ghost field) as a real model: no
field of any response can distinguish the fallback. -/
theorem C9_no_fallback_marker (p : ℚ) :
    interpret_pe_result dummyModelState p =
      interpret_pe_result { dummyModelState with isDummy := false } p := rfl
